import Mathlib

/-
Verification of the antigravity-claude-proxy dispatcher core.

Each definition below is a shallow embedding of one function of the
JavaScript sources (src/constants.js, src/cloudcode/rate-limit-state.js,
src/cloudcode/message-handler.js, src/cloudcode/streaming-handler.js,
src/account-manager/credentials.js, src/account-manager/onboarding.js,
src/auth/oauth.js, src/cloudcode/model-api.js, src/modules/usage-stats.js).
JavaScript numbers are embedded as Nat / Int, nullable values as Option,
objects as structures, JS object maps as association lists with first-match
lookup and append-on-miss insertion (JS property insertion order), and the
wall clock / random values / HTTP responses as explicit parameters.
-/

/-! ## String helpers (embedding String.prototype.includes / toLowerCase /
regex scans used by the sources) -/

/-- ASCII lower-casing, embedding String.prototype.toLowerCase for the
ASCII keyword tests the sources perform. -/
def strToLower (s : String) : String :=
  String.mk (s.toList.map Char.toLower)

/-- Does the first list start with the second one? -/
def startsWithL : List Char → List Char → Bool
  | _, [] => true
  | [], _ :: _ => false
  | a :: as, b :: bs => a == b && startsWithL as bs

/-- Does the second list occur contiguously inside the first one? -/
def containsL : List Char → List Char → Bool
  | [], needle => needle.isEmpty
  | a :: as, needle => startsWithL (a :: as) needle || containsL as needle

/-- Embedding of JavaScript String.prototype.includes. -/
def strContains (s sub : String) : Bool :=
  containsL s.toList sub.toList

/-- Decimal digits to a number, embedding parseInt(digits, 10). -/
def digitsToNat (l : List Char) : Nat :=
  l.foldl (fun n c => n * 10 + (c.toNat - 48)) 0

/-! ## Constants (src/constants.js; the values proved about are the
defaults, i.e. the values used when config.json carries no override) -/

/-- src/constants.js RATE_LIMIT_DEDUP_WINDOW_MS (default 2 s). -/
def RATE_LIMIT_DEDUP_WINDOW_MS : Nat := 2000

/-- src/constants.js RATE_LIMIT_STATE_RESET_MS (default 2 min). -/
def RATE_LIMIT_STATE_RESET_MS : Nat := 120000

/-- src/constants.js FIRST_RETRY_DELAY_MS (default 1 s). -/
def FIRST_RETRY_DELAY_MS : Nat := 1000

/-- src/constants.js MIN_BACKOFF_MS. -/
def MIN_BACKOFF_MS : Nat := 2000

/-- src/constants.js QUOTA_EXHAUSTED_BACKOFF_TIERS_MS. -/
def QUOTA_EXHAUSTED_BACKOFF_TIERS_MS : List Nat :=
  [60000, 300000, 1800000, 7200000]

/-- src/constants.js BACKOFF_BY_ERROR_TYPE.RATE_LIMIT_EXCEEDED. -/
def BACKOFF_RATE_LIMIT_EXCEEDED_MS : Nat := 30000

/-- src/constants.js BACKOFF_BY_ERROR_TYPE.MODEL_CAPACITY_EXHAUSTED. -/
def BACKOFF_MODEL_CAPACITY_EXHAUSTED_MS : Nat := 15000

/-- src/constants.js BACKOFF_BY_ERROR_TYPE.SERVER_ERROR. -/
def BACKOFF_SERVER_ERROR_MS : Nat := 20000

/-- src/constants.js BACKOFF_BY_ERROR_TYPE.UNKNOWN. -/
def BACKOFF_UNKNOWN_MS : Nat := 60000

/-- src/constants.js MAX_WAIT_BEFORE_ERROR_MS (default 2 min). -/
def MAX_WAIT_BEFORE_ERROR_MS : Nat := 120000

/-- src/constants.js MAX_EMPTY_RESPONSE_RETRIES. -/
def MAX_EMPTY_RESPONSE_RETRIES : Nat := 2

/-- src/constants.js DEFAULT_COOLDOWN_MS (default 10 s). -/
def DEFAULT_COOLDOWN_MS : Nat := 10000

/-- src/constants.js MODEL_FALLBACK_MAP, as the association list written
in the source. -/
def MODEL_FALLBACK_MAP : List (String × String) :=
  [("gemini-3-pro-high", "claude-opus-4-6-thinking"),
   ("gemini-3-pro-low", "claude-sonnet-4-5"),
   ("gemini-3-flash", "claude-sonnet-4-5-thinking"),
   ("claude-opus-4-6-thinking", "gemini-3-pro-high"),
   ("claude-sonnet-4-5-thinking", "gemini-3-flash"),
   ("claude-sonnet-4-5", "gemini-3-flash")]

/-- First-match association-list lookup, embedding a JS object property
read. -/
def lookupAssoc (l : List (String × String)) (k : String) : Option String :=
  match l with
  | [] => none
  | (k1, v) :: t => if k1 = k then some v else lookupAssoc t k

/-! ## Rate-limit backoff state machine (src/cloudcode/rate-limit-state.js) -/

/-- One entry of rateLimitStateByAccountModel: the value stored for a
(email, model) key. -/
structure RateLimitState where
  consecutive429 : Nat
  lastAt : Nat
  deriving DecidableEq, Repr

/-- The record returned by getRateLimitBackoff. -/
structure BackoffInfo where
  attempt : Nat
  delayMs : Nat
  isDuplicate : Bool
  deriving DecidableEq, Repr

/-- Embeds getRateLimitBackoff (src/cloudcode/rate-limit-state.js).
The map entry for the (email, model) key is passed in as `previous` and
the updated entry is returned alongside the result; `now` is Date.now()
and `serverRetryAfterMs` the nullable server-provided retry time. -/
def getRateLimitBackoff (previous : Option RateLimitState) (now : Nat)
    (serverRetryAfterMs : Option Nat) : BackoffInfo × Option RateLimitState :=
  match previous with
  | some prev =>
    if now - prev.lastAt < RATE_LIMIT_DEDUP_WINDOW_MS then
      let baseDelay := serverRetryAfterMs.getD FIRST_RETRY_DELAY_MS
      let backoffDelay := min (baseDelay * 2 ^ (prev.consecutive429 - 1)) 60000
      ({ attempt := prev.consecutive429, delayMs := max baseDelay backoffDelay,
         isDuplicate := true }, some prev)
    else
      let attempt :=
        if now - prev.lastAt < RATE_LIMIT_STATE_RESET_MS then
          prev.consecutive429 + 1
        else 1
      let baseDelay := serverRetryAfterMs.getD FIRST_RETRY_DELAY_MS
      let backoffDelay := min (baseDelay * 2 ^ (attempt - 1)) 60000
      ({ attempt := attempt, delayMs := max baseDelay backoffDelay,
         isDuplicate := false },
       some { consecutive429 := attempt, lastAt := now })
  | none =>
      let baseDelay := serverRetryAfterMs.getD FIRST_RETRY_DELAY_MS
      let backoffDelay := min (baseDelay * 2 ^ (1 - 1)) 60000
      ({ attempt := 1, delayMs := max baseDelay backoffDelay,
         isDuplicate := false },
       some { consecutive429 := 1, lastAt := now })

/-- The effective delay exactly as claim C3 words it, with the 60 s clamp
applied to the whole maximum: min (max base (base * 2 ^ (attempt - 1)))
60000.  Kept separate so it can be compared with what the code computes. -/
def claimedEffectiveDelay (base attempt : Nat) : Nat :=
  min (max base (base * 2 ^ (attempt - 1))) 60000

/-! ## Error classification and smart backoff
(src/cloudcode/rate-limit-parser.js parseRateLimitReason and
src/cloudcode/rate-limit-state.js calculateSmartBackoff) -/

/-- The error kinds returned by parseRateLimitReason. -/
inductive RateLimitReason where
  | quotaExhausted
  | rateLimitExceeded
  | modelCapacityExhausted
  | serverError
  | unknown
  deriving DecidableEq, Repr

/-- Embeds parseRateLimitReason (src/cloudcode/rate-limit-parser.js).
`status` is the optional HTTP status argument; calculateSmartBackoff calls
this with the argument omitted, embedded as `none`. -/
def parseRateLimitReason (errorText : String) (status : Option Nat) :
    RateLimitReason :=
  if status = some 529 ∨ status = some 503 then .modelCapacityExhausted
  else if status = some 500 then .serverError
  else
    let lower := strToLower errorText
    if strContains lower "quota_exhausted" ||
       strContains lower "quotaresetdelay" ||
       strContains lower "quotaresettimestamp" ||
       strContains lower "resource_exhausted" ||
       strContains lower "daily limit" ||
       strContains lower "quota exceeded" then .quotaExhausted
    else if strContains lower "model_capacity_exhausted" ||
       strContains lower "capacity_exhausted" ||
       strContains lower "model is currently overloaded" ||
       strContains lower "service temporarily unavailable" then
      .modelCapacityExhausted
    else if strContains lower "rate_limit_exceeded" ||
       strContains lower "rate limit" ||
       strContains lower "too many requests" ||
       strContains lower "throttl" then .rateLimitExceeded
    else if strContains lower "internal server error" ||
       strContains lower "server error" ||
       strContains lower "503" ||
       strContains lower "502" ||
       strContains lower "504" then .serverError
    else .unknown

/-- Embeds calculateSmartBackoff (src/cloudcode/rate-limit-state.js).
Modelled from the spec: the jitter produced by generateJitter
(src/utils/helpers.js, a file not among the provided sources) is passed
as the explicit argument `jitter`; per the spec it is uniform in
[-5000, 5000] ms, a bound the theorems assume where needed.  Everything
else is translated from the source. -/
def calculateSmartBackoff (errorText : String) (serverResetMs : Option Nat)
    (consecutiveFailures : Nat) (jitter : Int) : Int :=
  if 0 < serverResetMs.getD 0 then
    max ((serverResetMs.getD 0 : Nat) : Int) ((MIN_BACKOFF_MS : Nat) : Int)
  else
    match parseRateLimitReason errorText none with
    | .quotaExhausted =>
        let tierIndex :=
          min consecutiveFailures (QUOTA_EXHAUSTED_BACKOFF_TIERS_MS.length - 1)
        ((QUOTA_EXHAUSTED_BACKOFF_TIERS_MS.getD tierIndex 0 : Nat) : Int)
    | .rateLimitExceeded => ((BACKOFF_RATE_LIMIT_EXCEEDED_MS : Nat) : Int)
    | .modelCapacityExhausted =>
        ((BACKOFF_MODEL_CAPACITY_EXHAUSTED_MS : Nat) : Int) + jitter
    | .serverError => ((BACKOFF_SERVER_ERROR_MS : Nat) : Int)
    | .unknown => ((BACKOFF_UNKNOWN_MS : Nat) : Int)

/-- C3 amended.  For a (email, model) pair with previous state
(consec, lastAt): a 429 within the 2 s dedup window is reported as a
duplicate and leaves the stored state untouched; outside the window but
within 2 min the counter increments and the delay is
max(base, min(base * 2^(attempt-1), 60000)) where base is the server
retry time if present else FIRST_RETRY_DELAY_MS — the 60 s clamp binds
only to the exponential term; after at least 2 min of inactivity the
counter resets to 1. -/
theorem getRateLimitBackoff_spec (consec lastAt now : Nat)
    (server : Option Nat) :
    ((now - lastAt < 2000 →
        (getRateLimitBackoff (some ⟨consec, lastAt⟩) now server).1.isDuplicate
          = true ∧
        (getRateLimitBackoff (some ⟨consec, lastAt⟩) now server).2
          = some ⟨consec, lastAt⟩) ∧
     (2000 ≤ now - lastAt → now - lastAt < 120000 →
        (getRateLimitBackoff (some ⟨consec, lastAt⟩) now server).1.attempt
          = consec + 1 ∧
        (getRateLimitBackoff (some ⟨consec, lastAt⟩) now server).1.delayMs
          = max (server.getD FIRST_RETRY_DELAY_MS)
              (min (server.getD FIRST_RETRY_DELAY_MS * 2 ^ consec) 60000) ∧
        (getRateLimitBackoff (some ⟨consec, lastAt⟩) now server).1.isDuplicate
          = false) ∧
     (120000 ≤ now - lastAt →
        (getRateLimitBackoff (some ⟨consec, lastAt⟩) now server).1.attempt
          = 1 ∧
        (getRateLimitBackoff (some ⟨consec, lastAt⟩) now server).1.isDuplicate
          = false)) := by
  refine ⟨fun h => ?_, fun h2 h120 => ?_, fun h120 => ?_⟩
  · simp only [getRateLimitBackoff, RATE_LIMIT_DEDUP_WINDOW_MS, if_pos h]
    exact ⟨trivial, trivial⟩
  · have hnot : ¬ (now - lastAt < RATE_LIMIT_DEDUP_WINDOW_MS) := by
      simp only [RATE_LIMIT_DEDUP_WINDOW_MS]; omega
    have hreset : now - lastAt < RATE_LIMIT_STATE_RESET_MS := by
      simp only [RATE_LIMIT_STATE_RESET_MS]; omega
    simp only [getRateLimitBackoff, if_neg hnot, if_pos hreset]
    simp
  · have hnot : ¬ (now - lastAt < RATE_LIMIT_DEDUP_WINDOW_MS) := by
      simp only [RATE_LIMIT_DEDUP_WINDOW_MS]; omega
    have hreset : ¬ (now - lastAt < RATE_LIMIT_STATE_RESET_MS) := by
      simp only [RATE_LIMIT_STATE_RESET_MS]; omega
    simp only [getRateLimitBackoff, if_neg hnot, if_neg hreset]
    exact ⟨trivial, trivial⟩

/-- Witness for getRateLimitBackoff_spec at concrete inputs: a second 429
after 1 s is a duplicate; after 3 s with server base 4 s it escalates to
attempt 2 with delay 8 s; after 2 min it resets to attempt 1. -/
theorem getRateLimitBackoff_spec_witness :
    ((getRateLimitBackoff (some ⟨1, 0⟩) 1000 (some 4000)).1.isDuplicate
       = true) ∧
    ((getRateLimitBackoff (some ⟨1, 0⟩) 3000 (some 4000)).1.attempt = 2 ∧
     (getRateLimitBackoff (some ⟨1, 0⟩) 3000 (some 4000)).1.delayMs = 8000) ∧
    ((getRateLimitBackoff (some ⟨1, 0⟩) 120000 (some 4000)).1.attempt = 1) := by
  refine ⟨((getRateLimitBackoff_spec 1 0 1000 (some 4000)).1 (by decide)).1,
          ⟨((getRateLimitBackoff_spec 1 0 3000 (some 4000)).2.1 (by decide)
              (by decide)).1, ?_⟩,
          ((getRateLimitBackoff_spec 1 0 120000 (some 4000)).2.2
             (by decide)).1⟩
  have h := ((getRateLimitBackoff_spec 1 0 3000 (some 4000)).2.1 (by decide)
      (by decide)).2.1
  simpa using h

/-- C3 counterexample.  The claim clamps the whole effective delay at
60 s; the code clamps only the exponential term, so a server-provided
base of 120 s at attempt 2 yields 120 s, not 60 s. -/
theorem getRateLimitBackoff_claim_counterexample :
    (getRateLimitBackoff (some ⟨1, 0⟩) 3000 (some 120000)).1.delayMs
        = 120000 ∧
    claimedEffectiveDelay 120000 2 = 60000 ∧
    (getRateLimitBackoff (some ⟨1, 0⟩) 3000 (some 120000)).1.delayMs
        ≠ claimedEffectiveDelay 120000 2 := by
  refine ⟨?_, by decide, ?_⟩ <;> decide

/-- C4.  The smart backoff: a positive server-provided reset delay wins
with a 2 s floor regardless of error text; otherwise the backoff is
chosen by the classified kind: QUOTA_EXHAUSTED takes the (60 s, 5 min,
30 min, 2 h) tier indexed by the consecutive-failure count clamped at the
last tier, MODEL_CAPACITY_EXHAUSTED is 15 s plus the jitter (within
[10 s, 20 s] for jitter in [-5 s, 5 s]), RATE_LIMIT 30 s, SERVER_ERROR
20 s, UNKNOWN 60 s. -/
theorem calculateSmartBackoff_spec (errorText : String) (server : Option Nat)
    (cf : Nat) (jitter : Int) :
    (QUOTA_EXHAUSTED_BACKOFF_TIERS_MS = [60000, 300000, 1800000, 7200000]) ∧
    (∀ s : Nat, server = some s → 0 < s →
      calculateSmartBackoff errorText server cf jitter = max (s : Int) 2000) ∧
    (server.getD 0 = 0 →
      ((parseRateLimitReason errorText none = .quotaExhausted →
          calculateSmartBackoff errorText server cf jitter
            = ((QUOTA_EXHAUSTED_BACKOFF_TIERS_MS.getD (min cf 3) 0 : Nat) :
                Int)) ∧
       (parseRateLimitReason errorText none = .modelCapacityExhausted →
          calculateSmartBackoff errorText server cf jitter = 15000 + jitter ∧
          (-5000 ≤ jitter → jitter ≤ 5000 →
            10000 ≤ calculateSmartBackoff errorText server cf jitter ∧
            calculateSmartBackoff errorText server cf jitter ≤ 20000)) ∧
       (parseRateLimitReason errorText none = .rateLimitExceeded →
          calculateSmartBackoff errorText server cf jitter = 30000) ∧
       (parseRateLimitReason errorText none = .serverError →
          calculateSmartBackoff errorText server cf jitter = 20000) ∧
       (parseRateLimitReason errorText none = .unknown →
          calculateSmartBackoff errorText server cf jitter = 60000))) := by
  refine ⟨rfl, fun s hs hpos => ?_, fun hz => ?_⟩
  · simp only [calculateSmartBackoff, hs, Option.getD_some, if_pos hpos,
      MIN_BACKOFF_MS]
    norm_cast
  · have hcond : ¬ (0 < server.getD 0) := by omega
    refine ⟨fun hr => ?_, fun hr => ?_, fun hr => ?_, fun hr => ?_,
            fun hr => ?_⟩ <;>
      simp only [calculateSmartBackoff, if_neg hcond, hr,
        QUOTA_EXHAUSTED_BACKOFF_TIERS_MS, BACKOFF_RATE_LIMIT_EXCEEDED_MS,
        BACKOFF_MODEL_CAPACITY_EXHAUSTED_MS, BACKOFF_SERVER_ERROR_MS,
        BACKOFF_UNKNOWN_MS, List.length_cons, List.length_nil]
    · exact ⟨rfl, fun hlo hhi => by omega⟩
    · norm_cast
    · norm_cast
    · norm_cast

/-- Witness for calculateSmartBackoff_spec at concrete inputs: a server
delay of 900 ms is floored to 2 s; without a server delay,
"quota exceeded" with 5 consecutive failures hits the clamped 2 h tier,
"too many requests" gives 30 s, and an unclassified text gives 60 s. -/
theorem calculateSmartBackoff_spec_witness :
    calculateSmartBackoff "anything" (some 900) 0 0 = 2000 ∧
    calculateSmartBackoff "quota exceeded" none 5 0 = 7200000 ∧
    calculateSmartBackoff "too many requests" none 0 0 = 30000 ∧
    calculateSmartBackoff "mystery failure" none 0 0 = 60000 := by
  refine ⟨?_, ?_, ?_, ?_⟩
  · have h := (calculateSmartBackoff_spec "anything" (some 900) 0 0).2.1
      900 rfl (by decide)
    simpa using h
  · have h := ((calculateSmartBackoff_spec "quota exceeded" none 5 0).2.2
      rfl).1 (by decide)
    simpa using h
  · exact ((calculateSmartBackoff_spec "too many requests" none 0 0).2.2
      rfl).2.2.1 (by decide)
  · exact ((calculateSmartBackoff_spec "mystery failure" none 0 0).2.2
      rfl).2.2.2.2 (by decide)

/-! ## Dispatch retry loop head
(src/cloudcode/message-handler.js sendMessage lines 58-124 and
src/cloudcode/streaming-handler.js sendMessageStream lines 57-124,
which are textually identical up to logging) -/

/-- Modelled from the spec: getFallbackModel (src/fallback-config.js is
not among the provided sources).  Per the spec a static mapping assigns
each model its cross-family fallback; the mapping itself is
MODEL_FALLBACK_MAP from src/constants.js, so the function is its
lookup. -/
def getFallbackModel (model : String) : Option String :=
  lookupAssoc MODEL_FALLBACK_MAP model

/-- The pool observations made by one iteration of the dispatch retry
loop: availableAccounts.length after the expired-limit sweep,
isAllRateLimited(model), getMinWaitTimeMs(model), and the
selectAccount(model) result (optional account email, waitMs). -/
structure DispatchEnv where
  availableCount : Nat
  allRateLimited : Bool
  minWaitMs : Nat
  selection : Option String × Nat
  deriving DecidableEq, Repr

/-- How one iteration of the dispatch retry loop exits before reaching
the endpoint loop.  For the continuing branches `nextAttempt` is the
value the attempt counter holds when the next iteration begins, i.e.
after the branch's own `attempt--` (where present) and the for-loop's
`attempt++`. -/
inductive DispatchOutcome where
  | waitAllLimited (sleepMs : Nat) (nextAttempt : Nat)
  | fallbackDispatch (model : String) (fallbackEnabledOnRecursiveCall : Bool)
  | resourceExhausted
  | noAccountsFatal
  | strategyWait (sleepMs : Nat) (nextAttempt : Nat)
  | skipNoAccount (nextAttempt : Nat)
  | tryAccount (email : String) (throttleMs : Nat)
  deriving DecidableEq, Repr

/-- Embeds the head of one iteration of the retry loop of sendMessage
(src/cloudcode/message-handler.js lines 58-124): the no-available-account
branches (wait / fallback / resource-exhausted / fatal) and the
strategy-selection branches (wait without an account / throttled account /
no account / account). -/
def sendMessageIterate (model : String) (fallbackEnabled : Bool)
    (attempt : Nat) (env : DispatchEnv) : DispatchOutcome :=
  if env.availableCount = 0 then
    if env.allRateLimited then
      if MAX_WAIT_BEFORE_ERROR_MS < env.minWaitMs then
        match (if fallbackEnabled then getFallbackModel model else none) with
        | some fb => .fallbackDispatch fb false
        | none => .resourceExhausted
      else .waitAllLimited (env.minWaitMs + 500) attempt
    else .noAccountsFatal
  else
    match env.selection with
    | (none, w) =>
        if 0 < w then .strategyWait (w + 500) attempt
        else .skipNoAccount (attempt + 1)
    | (some email, w) => .tryAccount email (if 0 < w then w else 0)

/-- Embeds the head of one iteration of the retry loop of
sendMessageStream (src/cloudcode/streaming-handler.js lines 57-124); the
source is textually identical to the non-streaming head, with the
recursive fallback call written as a yield-star delegation. -/
def sendMessageStreamIterate (model : String) (fallbackEnabled : Bool)
    (attempt : Nat) (env : DispatchEnv) : DispatchOutcome :=
  if env.availableCount = 0 then
    if env.allRateLimited then
      if MAX_WAIT_BEFORE_ERROR_MS < env.minWaitMs then
        match (if fallbackEnabled then getFallbackModel model else none) with
        | some fb => .fallbackDispatch fb false
        | none => .resourceExhausted
      else .waitAllLimited (env.minWaitMs + 500) attempt
    else .noAccountsFatal
  else
    match env.selection with
    | (none, w) =>
        if 0 < w then .strategyWait (w + 500) attempt
        else .skipNoAccount (attempt + 1)
    | (some email, w) => .tryAccount email (if 0 < w then w else 0)

/-- C1.  Every sleep taken while awaiting pool availability — the
all-rate-limited wait and the strategy wait-without-account — is followed
by `attempt--; continue`, so with the for-loop's increment the attempt
counter at the next iteration equals the counter at this one: waiting
never consumes retry budget, in both dispatchers. -/
theorem dispatch_wait_preserves_attempt (model : String)
    (fallbackEnabled : Bool) (attempt : Nat) (env : DispatchEnv)
    (sleepMs nextAttempt : Nat) :
    (sendMessageIterate model fallbackEnabled attempt env
        = .waitAllLimited sleepMs nextAttempt → nextAttempt = attempt) ∧
    (sendMessageIterate model fallbackEnabled attempt env
        = .strategyWait sleepMs nextAttempt → nextAttempt = attempt) ∧
    (sendMessageStreamIterate model fallbackEnabled attempt env
        = .waitAllLimited sleepMs nextAttempt → nextAttempt = attempt) ∧
    (sendMessageStreamIterate model fallbackEnabled attempt env
        = .strategyWait sleepMs nextAttempt → nextAttempt = attempt) := by
  refine ⟨fun h => ?_, fun h => ?_, fun h => ?_, fun h => ?_⟩ <;>
    · simp only [sendMessageIterate, sendMessageStreamIterate] at h
      repeat' split at h
      all_goals
        first
          | exact DispatchOutcome.noConfusion h
          | (injection h with h1 h2; exact h2.symm)

/-- Witness for dispatch_wait_preserves_attempt: all three accounts
rate-limited with a 30 s minimum wait at attempt 5 sleeps 30.5 s and
re-enters with the counter still at 5; a strategy wait of 1 s without an
account behaves the same. -/
theorem dispatch_wait_preserves_attempt_witness :
    (sendMessageIterate "claude-sonnet-4-5" false 5
        ⟨0, true, 30000, (none, 0)⟩ = .waitAllLimited 30500 5 ∧ (5 : Nat) = 5)
    ∧ (sendMessageStreamIterate "claude-sonnet-4-5" false 7
        ⟨2, false, 0, (none, 1000)⟩ = .strategyWait 1500 7 ∧ (7 : Nat) = 7) := by
  refine ⟨⟨by decide, ?_⟩, ⟨by decide, ?_⟩⟩
  · exact (dispatch_wait_preserves_attempt "claude-sonnet-4-5" false 5
      ⟨0, true, 30000, (none, 0)⟩ 30500 5).1 (by decide)
  · exact (dispatch_wait_preserves_attempt "claude-sonnet-4-5" false 7
      ⟨2, false, 0, (none, 1000)⟩ 1500 7).2.2.2 (by decide)

/-- C2 counterexample.  The static fallback mapping has no entry for
claude-opus-4-5-thinking (its Claude-opus key is claude-opus-4-6-thinking),
so with all accounts rate-limited beyond the threshold and fallback
enabled, dispatch of claude-opus-4-5-thinking throws resource-exhausted
instead of recursing into the Gemini model. -/
theorem fallback_map_claim_counterexample :
    getFallbackModel "claude-opus-4-5-thinking" = none ∧
    lookupAssoc MODEL_FALLBACK_MAP "claude-opus-4-5-thinking"
      ≠ some "gemini-3-pro-high" ∧
    sendMessageIterate "claude-opus-4-5-thinking" true 0
        ⟨0, true, 180000, (none, 0)⟩ = .resourceExhausted := by
  refine ⟨by decide, by decide, by decide⟩

/-- C2 amended.  The mapping assigns gemini-3-pro-high to
claude-opus-4-6-thinking; when every account for it is rate-limited with
the minimum wait above the 2 min threshold and fallback is enabled, the
dispatcher restarts itself once with the Gemini model and fallback
disabled on the recursive call, and the same state with fallback already
disabled throws resource-exhausted instead of chaining further. -/
theorem fallback_dispatch_spec (attempt : Nat) (env : DispatchEnv)
    (h0 : env.availableCount = 0) (hall : env.allRateLimited = true)
    (hwait : MAX_WAIT_BEFORE_ERROR_MS < env.minWaitMs) :
    getFallbackModel "claude-opus-4-6-thinking" = some "gemini-3-pro-high" ∧
    sendMessageIterate "claude-opus-4-6-thinking" true attempt env
      = .fallbackDispatch "gemini-3-pro-high" false ∧
    sendMessageIterate "claude-opus-4-6-thinking" false attempt env
      = .resourceExhausted := by
  obtain ⟨ac, arl, mw, sel⟩ := env
  simp only at h0 hall
  subst h0; subst hall
  refine ⟨by decide, ?_, ?_⟩ <;>
    · simp only [sendMessageIterate]
      rw [if_pos trivial, if_pos trivial, if_pos hwait]
      rfl

/-- Witness for fallback_dispatch_spec at a concrete pool state (no
available account, all rate-limited, 3 min minimum wait). -/
theorem fallback_dispatch_spec_witness :
    sendMessageIterate "claude-opus-4-6-thinking" true 0
        ⟨0, true, 180000, (none, 0)⟩
      = .fallbackDispatch "gemini-3-pro-high" false ∧
    sendMessageIterate "claude-opus-4-6-thinking" false 0
        ⟨0, true, 180000, (none, 0)⟩ = .resourceExhausted := by
  have h := fallback_dispatch_spec 0 ⟨0, true, 180000, (none, 0)⟩ rfl rfl
    (by decide)
  exact ⟨h.2.1, h.2.2⟩

/-! ## Streaming empty-response recovery
(src/cloudcode/streaming-handler.js lines 286-320 and
emitEmptyResponseFallback lines 467-506) -/

/-- The Anthropic-format SSE events the streaming handler emits,
restricted to the fields the synthetic fallback stream populates. -/
inductive AnthropicEvent where
  | messageStart (messageId : String) (model : String)
  | contentBlockStart (index : Nat) (blockType : String) (text : String)
  | contentBlockDelta (index : Nat) (deltaType : String) (text : String)
  | contentBlockStop (index : Nat)
  | messageDelta (stopReason : String)
  | messageStop
  deriving DecidableEq, Repr

/-- Embeds emitEmptyResponseFallback
(src/cloudcode/streaming-handler.js).  The random message id produced by
crypto.randomBytes is passed in as `messageId`. -/
def emitEmptyResponseFallback (model : String) (messageId : String) :
    List AnthropicEvent :=
  [.messageStart messageId model,
   .contentBlockStart 0 "text" "",
   .contentBlockDelta 0 "text_delta"
     "[No response after retries - please try again]",
   .contentBlockStop 0,
   .messageDelta "end_turn",
   .messageStop]

/-- Embeds the empty-response retry loop of sendMessageStream
(src/cloudcode/streaming-handler.js lines 288-312) on the happy and
all-empty paths: `yields k` tells whether the k-th fetched response
(k = 0 is the original 2xx response, k ≥ 1 the refetches) yields any SSE
event.  Returns the backoff sleeps performed and `true` when some
response streamed, `false` when the loop fell back to the synthetic
stream.  `fuel` is maxRetries + 1 - k, the number of loop iterations
left. -/
def emptyRetryGo (yields : Nat → Bool) (maxRetries : Nat) :
    Nat → Nat → List Nat × Bool
  | _, 0 => ([], false)
  | k, fuel + 1 =>
    if yields k then ([], true)
    else if maxRetries ≤ k then ([], false)
    else
      let sleepMs := 500 * 2 ^ k
      let rest := emptyRetryGo yields maxRetries (k + 1) fuel
      (sleepMs :: rest.1, rest.2)

/-- The whole empty-response retry loop, starting at emptyRetries = 0. -/
def emptyRetryLoop (yields : Nat → Bool) (maxRetries : Nat) :
    List Nat × Bool :=
  emptyRetryGo yields maxRetries 0 (maxRetries + 1)

/-- C5.  When the 2xx response and every refetch yield zero SSE events,
the streaming handler sleeps 500 * 2^k ms before refetch k+1 (500 ms then
1 s under the shipped retry count of 2), gives up after
MAX_EMPTY_RESPONSE_RETRIES refetches, and emits the synthetic terminal
stream message_start, content_block_start, a text delta carrying exactly
"[No response after retries - please try again]", content_block_stop,
message_delta, message_stop. -/
theorem empty_response_fallback_spec (yields : Nat → Bool)
    (model messageId : String) (h : ∀ k, yields k = false) :
    emptyRetryLoop yields MAX_EMPTY_RESPONSE_RETRIES
      = ((List.range MAX_EMPTY_RESPONSE_RETRIES).map (fun k => 500 * 2 ^ k),
         false) ∧
    (List.range MAX_EMPTY_RESPONSE_RETRIES).map (fun k => 500 * 2 ^ k)
      = [500, 1000] ∧
    emitEmptyResponseFallback model messageId
      = [.messageStart messageId model,
         .contentBlockStart 0 "text" "",
         .contentBlockDelta 0 "text_delta"
           "[No response after retries - please try again]",
         .contentBlockStop 0,
         .messageDelta "end_turn",
         .messageStop] ∧
    (emitEmptyResponseFallback model messageId).getLast? = some .messageStop := by
  refine ⟨?_, by decide, rfl, rfl⟩
  simp only [emptyRetryLoop, MAX_EMPTY_RESPONSE_RETRIES, emptyRetryGo,
    h 0, h 1, h 2]
  decide

/-- Witness for empty_response_fallback_spec with every response empty. -/
theorem empty_response_fallback_spec_witness :
    emptyRetryLoop (fun _ => false) MAX_EMPTY_RESPONSE_RETRIES
      = ([500, 1000], false) ∧
    (emitEmptyResponseFallback "gemini-3-flash" "msg_0").getLast?
      = some .messageStop := by
  have h := empty_response_fallback_spec (fun _ => false) "gemini-3-flash"
    "msg_0" (fun _ => rfl)
  exact ⟨h.2.1 ▸ h.1, h.2.2.2⟩

/-! ## Credentials: token acquisition and the invalid flag
(src/account-manager/credentials.js getTokenForAccount) -/

/-- The Account fields getTokenForAccount reads and writes.  `source` is
the credential kind string ("oauth", "manual" or "database"). -/
structure Account where
  email : String
  source : String
  refreshToken : Option String
  apiKey : Option String
  isInvalid : Bool
  invalidReason : Option String
  deriving DecidableEq, Repr

/-- JS truthiness of a nullable string field. -/
def optTruthy : Option String → Bool
  | some s => !s.isEmpty
  | none => false

/-- The outcome of the refreshAccessToken HTTP call, passed in as a
parameter: success with the new access token, a transient network error,
or any other failure. -/
inductive RefreshOutcome where
  | success (accessToken : String)
  | networkError (msg : String)
  | failure (msg : String)
  deriving DecidableEq, Repr

/-- What getTokenForAccount produces: a token, or one of its two thrown
error kinds. -/
inductive TokenResult where
  | ok (token : String)
  | authNetworkError (msg : String)
  | authInvalid (msg : String)
  deriving DecidableEq, Repr

/-- Embeds getTokenForAccount (src/account-manager/credentials.js lines
67-118).  `cachedFresh` is the cached token when the cache entry is
younger than TOKEN_REFRESH_INTERVAL_MS, else none; `refresh` is the
outcome of refreshAccessToken; `dbToken` is the token the local-database
path reads.  Returns the result together with the account as the call
leaves it; the onInvalid callback is the pool's markInvalid, which sets
isInvalid and invalidReason. -/
def getTokenForAccount (account : Account) (cachedFresh : Option String)
    (refresh : RefreshOutcome) (dbToken : String) :
    TokenResult × Account :=
  match cachedFresh with
  | some t => (.ok t, account)
  | none =>
    if account.source = "oauth" && optTruthy account.refreshToken then
      match refresh with
      | .success t =>
          let account1 :=
            if account.isInvalid then
              { account with isInvalid := false, invalidReason := none }
            else account
          (.ok t, account1)
      | .networkError m => (.authNetworkError m, account)
      | .failure m =>
          (.authInvalid m,
           { account with isInvalid := true, invalidReason := some m })
    else if account.source = "manual" && optTruthy account.apiKey then
      (.ok (account.apiKey.getD ""), account)
    else
      (.ok dbToken, account)

/-- Modelled from the spec: the pool's eligibility filter (the account
pool manager is not among the provided sources).  Per the spec, invalid
accounts "remain in the pool but are never eligible", so selection draws
only from accounts passing this filter; only the invalid-flag conjunct is
modelled here. -/
def eligibleForSelection (account : Account) : Bool :=
  !account.isInvalid

/-- C6 counterexample.  An OAuth account marked invalid whose refresh
token still works is silently un-invalidated by getTokenForAccount, so
the invalid flag is not sticky across token refresh. -/
theorem invalid_flag_claim_counterexample :
    ((getTokenForAccount
        { email := "a@example.com", source := "oauth",
          refreshToken := some "r", apiKey := none, isInvalid := true,
          invalidReason := some "Token revoked" }
        none (.success "tok") "").2).isInvalid = false := by
  decide

/-- C6 amended.  A successful OAuth token refresh clears isInvalid (and
its reason); apart from that path the flag is sticky within the token
operation: a cache hit and a transient network error leave the account
untouched, a non-network refresh failure marks it invalid, and selection
(spec-modelled filter) never yields an account with isInvalid = true. -/
theorem invalid_flag_spec (account : Account) (t dbToken : String)
    (m : String) :
    (account.source = "oauth" → optTruthy account.refreshToken = true →
      ((getTokenForAccount account none (.success t) dbToken).2.isInvalid
          = false ∧
       (getTokenForAccount account none (.networkError m) dbToken).2
          = account ∧
       (getTokenForAccount account none (.failure m) dbToken).2.isInvalid
          = true)) ∧
    (∀ cached : String, ∀ refresh : RefreshOutcome,
      (getTokenForAccount account (some cached) refresh dbToken).2
        = account) ∧
    (∀ pool : List Account,
      ∀ a ∈ pool.filter eligibleForSelection, a.isInvalid = false) := by
  refine ⟨fun hs hr => ?_, fun cached refresh => rfl, fun pool a ha => ?_⟩
  · have hcond : (account.source = "oauth" && optTruthy account.refreshToken)
        = true := by
      rw [hs] at *
      simp [hr]
    refine ⟨?_, ?_, ?_⟩ <;>
      simp only [getTokenForAccount] <;>
      rw [if_pos hcond]
    cases hi : account.isInvalid <;> simp [hi]
  · have := List.of_mem_filter ha
    simpa [eligibleForSelection] using this

/-- Witness for invalid_flag_spec on a concrete invalid OAuth account:
the successful refresh clears the flag, the network error leaves the
account unchanged, and the filtered pool contains no invalid account. -/
theorem invalid_flag_spec_witness :
    ((getTokenForAccount
        { email := "a@example.com", source := "oauth",
          refreshToken := some "r", apiKey := none, isInvalid := true,
          invalidReason := some "Token revoked" }
        none (.success "tok") "db").2.isInvalid = false) ∧
    ((getTokenForAccount
        { email := "a@example.com", source := "oauth",
          refreshToken := some "r", apiKey := none, isInvalid := true,
          invalidReason := some "Token revoked" }
        none (.networkError "timeout") "db").2
      = { email := "a@example.com", source := "oauth",
          refreshToken := some "r", apiKey := none, isInvalid := true,
          invalidReason := some "Token revoked" }) := by
  have h := invalid_flag_spec
    { email := "a@example.com", source := "oauth",
      refreshToken := some "r", apiKey := none, isInvalid := true,
      invalidReason := some "Token revoked" }
    "tok" "db" "timeout"
  exact ⟨(h.1 rfl (by decide)).1, (h.1 rfl (by decide)).2.1⟩

/-! ## Thinking-model detection and the non-streaming upstream endpoint
(src/constants.js isThinkingModel / getModelFamily and
src/cloudcode/message-handler.js lines 142-151, 290-304) -/

/-- Embeds getModelFamily (src/constants.js): family by name substring. -/
def getModelFamily (modelName : String) : String :=
  let lower := strToLower modelName
  if strContains lower "claude" then "claude"
  else if strContains lower "gemini" then "gemini"
  else "unknown"

/-- Scans for the first match of the regex gemini-(digits) and parses the
captured digit run, embedding lower.match(/gemini-(\d+)/) followed by
parseInt: positions where "gemini-" is not followed by a digit are
skipped, as the regex engine does. -/
def geminiVersionFrom : List Char → Option Nat
  | [] => none
  | c :: t =>
    if startsWithL (c :: t) ("gemini-".toList) then
      let digits := ((c :: t).drop 7).takeWhile Char.isDigit
      if digits.isEmpty then geminiVersionFrom t else some (digitsToNat digits)
    else geminiVersionFrom t

/-- Embeds isThinkingModel (src/constants.js): Claude names containing
"thinking"; Gemini names containing "thinking" or carrying a numeric
version of at least 3. -/
def isThinkingModel (modelName : String) : Bool :=
  let lower := strToLower modelName
  if strContains lower "claude" && strContains lower "thinking" then true
  else if strContains lower "gemini" then
    if strContains lower "thinking" then true
    else
      match geminiVersionFrom lower.toList with
      | some v => decide (3 ≤ v)
      | none => false
  else false

/-- The thinking-capability predicate exactly as claim C9 words it: a
Claude-family name containing "thinking", or a Gemini-family name
containing "thinking" or with numeric version at least 3 (family
membership being the name-substring test the translator uses
throughout). -/
def claimedThinkingCapable (modelName : String) : Bool :=
  let lower := strToLower modelName
  (strContains lower "claude" && strContains lower "thinking") ||
  (strContains lower "gemini" &&
    (strContains lower "thinking" ||
     (match geminiVersionFrom lower.toList with
      | some v => decide (3 ≤ v)
      | none => false)))

/-- Embeds the URL choice of the non-streaming dispatcher
(src/cloudcode/message-handler.js lines 142-144): the SSE streaming
endpoint for thinking models, the unary endpoint otherwise. -/
def sendMessageUpstreamUrl (endpoint model : String) : String :=
  if isThinkingModel model then
    endpoint ++ "/v1internal:streamGenerateContent?alt=sse"
  else
    endpoint ++ "/v1internal:generateContent"

/-- How the non-streaming dispatcher consumes a 2xx response
(src/cloudcode/message-handler.js lines 290-304): SSE events aggregated
into one final Anthropic response for thinking models, plain JSON
conversion otherwise. -/
inductive ResponseMode where
  | sseAggregated
  | unaryJson
  deriving DecidableEq, Repr

/-- Embeds the response-consumption choice of sendMessage. -/
def sendMessageResponseMode (model : String) : ResponseMode :=
  if isThinkingModel model then .sseAggregated else .unaryJson

/-- C9.  isThinkingModel coincides with the claim's thinking-capability
predicate on every model name, and the non-streaming dispatcher posts
thinking models to the SSE streamGenerateContent endpoint and aggregates
the events, while non-thinking models use the unary generateContent
endpoint with plain JSON. -/
theorem thinking_model_routing_spec (model endpoint : String) :
    isThinkingModel model = claimedThinkingCapable model ∧
    (isThinkingModel model = true →
      sendMessageUpstreamUrl endpoint model
        = endpoint ++ "/v1internal:streamGenerateContent?alt=sse" ∧
      sendMessageResponseMode model = .sseAggregated) ∧
    (isThinkingModel model = false →
      sendMessageUpstreamUrl endpoint model
        = endpoint ++ "/v1internal:generateContent" ∧
      sendMessageResponseMode model = .unaryJson) := by
  refine ⟨?_, fun h => ?_, fun h => ?_⟩
  · simp only [isThinkingModel, claimedThinkingCapable]
    cases hc : strContains (strToLower model) "claude" <;>
      cases ht : strContains (strToLower model) "thinking" <;>
      cases hg : strContains (strToLower model) "gemini" <;>
      simp [hc, ht, hg]
  · constructor <;> simp [sendMessageUpstreamUrl, sendMessageResponseMode, h]
  · constructor <;> simp [sendMessageUpstreamUrl, sendMessageResponseMode, h]

/-- Witness for thinking_model_routing_spec: claude-opus-4-6-thinking and
gemini-3-pro-high (version 3 without "thinking") route to the SSE
endpoint; claude-sonnet-4-5 and gemini-2.5-pro (version 2) use the unary
endpoint. -/
theorem thinking_model_routing_spec_witness :
    (sendMessageUpstreamUrl "https://cloudcode-pa.googleapis.com"
        "claude-opus-4-6-thinking"
      = "https://cloudcode-pa.googleapis.com/v1internal:streamGenerateContent?alt=sse") ∧
    (sendMessageResponseMode "gemini-3-pro-high" = .sseAggregated) ∧
    (sendMessageUpstreamUrl "https://cloudcode-pa.googleapis.com"
        "claude-sonnet-4-5"
      = "https://cloudcode-pa.googleapis.com/v1internal:generateContent") ∧
    (sendMessageResponseMode "gemini-2.5-pro" = .unaryJson) := by
  refine ⟨?_, ?_, ?_, ?_⟩
  · exact ((thinking_model_routing_spec "claude-opus-4-6-thinking"
      "https://cloudcode-pa.googleapis.com").2.1 (by decide)).1
  · exact ((thinking_model_routing_spec "gemini-3-pro-high"
      "https://cloudcode-pa.googleapis.com").2.1 (by decide)).2
  · exact ((thinking_model_routing_spec "claude-sonnet-4-5"
      "https://cloudcode-pa.googleapis.com").2.2 (by decide)).1
  · exact ((thinking_model_routing_spec "gemini-2.5-pro"
      "https://cloudcode-pa.googleapis.com").2.2 (by decide)).2

/-! ## Subscription-tier extraction
(src/cloudcode/model-api.js parseTierId,
src/account-manager/onboarding.js getDefaultTierId,
src/account-manager/credentials.js extractSubscriptionFromResponse) -/

/-- The subscription tiers. -/
inductive Tier where
  | free
  | pro
  | ultra
  | unknownTier
  deriving DecidableEq, Repr

/-- Embeds parseTierId (src/cloudcode/model-api.js). -/
def parseTierId (tierId : String) : Tier :=
  if tierId = "" then .unknownTier
  else
    let lower := strToLower tierId
    if strContains lower "ultra" then .ultra
    else if lower = "standard-tier" then .pro
    else if strContains lower "pro" || strContains lower "premium" then .pro
    else if lower = "free-tier" || strContains lower "free" then .free
    else .unknownTier

/-- One entry of loadCodeAssist's allowedTiers list. -/
structure AllowedTier where
  id : Option String
  isDefault : Bool
  deriving DecidableEq, Repr

/-- The tier-relevant fields of a loadCodeAssist response. -/
structure LoadCodeAssistData where
  paidTierId : Option String
  currentTierId : Option String
  allowedTiers : List AllowedTier
  cloudaicompanionProject : Option String
  deriving DecidableEq, Repr

/-- Embeds getDefaultTierId (src/account-manager/onboarding.js): the id
of the first tier marked default, else of the first tier. -/
def getDefaultTierId (allowedTiers : List AllowedTier) : Option String :=
  if allowedTiers.isEmpty then none
  else
    match allowedTiers.find? (fun t => t.isDefault) with
    | some t => t.id
    | none => allowedTiers.head?.bind (fun t => t.id)

/-- Embeds the tier computed by extractSubscriptionFromResponse
(src/account-manager/credentials.js lines 319-344): paidTier.id when
truthy, else currentTier.id when truthy, else the literal default
"free"; allowedTiers is never consulted. -/
def extractSubscriptionTier (data : Option LoadCodeAssistData) :
    Option Tier :=
  match data with
  | none => none
  | some d =>
    some (if optTruthy d.paidTierId then parseTierId (d.paidTierId.getD "")
          else if optTruthy d.currentTierId then
            parseTierId (d.currentTierId.getD "")
          else .free)

/-- The tier-source priority exactly as claim C8 words it: paidTier.id,
else currentTier.id, else the tier parsed from the default entry of
allowedTiers. -/
def claimedSubscriptionTier (d : LoadCodeAssistData) : Tier :=
  if optTruthy d.paidTierId then parseTierId (d.paidTierId.getD "")
  else if optTruthy d.currentTierId then parseTierId (d.currentTierId.getD "")
  else parseTierId ((getDefaultTierId d.allowedTiers).getD "")

/-- C8 counterexample.  On a response carrying neither paidTier nor
currentTier but an allowedTiers default of g1-ultra-tier, the code
returns free while the claimed priority returns ultra: allowedTiers is
never consulted by extractSubscriptionFromResponse. -/
theorem subscription_priority_claim_counterexample :
    extractSubscriptionTier
        (some { paidTierId := none, currentTierId := none,
                allowedTiers := [{ id := some "g1-ultra-tier",
                                   isDefault := true }],
                cloudaicompanionProject := none })
      = some .free ∧
    claimedSubscriptionTier
        { paidTierId := none, currentTierId := none,
          allowedTiers := [{ id := some "g1-ultra-tier", isDefault := true }],
          cloudaicompanionProject := none }
      = .ultra ∧
    extractSubscriptionTier
        (some { paidTierId := none, currentTierId := none,
                allowedTiers := [{ id := some "g1-ultra-tier",
                                   isDefault := true }],
                cloudaicompanionProject := none })
      ≠ some (claimedSubscriptionTier
          { paidTierId := none, currentTierId := none,
            allowedTiers := [{ id := some "g1-ultra-tier",
                               isDefault := true }],
            cloudaicompanionProject := none }) := by
  refine ⟨by decide, by decide, by decide⟩

/-- C8 amended.  extractSubscriptionFromResponse uses paidTier.id when
present (truthy), else currentTier.id when present, and otherwise
defaults to the free tier without consulting allowedTiers. -/
theorem extractSubscriptionTier_spec (d : LoadCodeAssistData) :
    (optTruthy d.paidTierId = true →
      extractSubscriptionTier (some d)
        = some (parseTierId (d.paidTierId.getD ""))) ∧
    (optTruthy d.paidTierId = false → optTruthy d.currentTierId = true →
      extractSubscriptionTier (some d)
        = some (parseTierId (d.currentTierId.getD ""))) ∧
    (optTruthy d.paidTierId = false → optTruthy d.currentTierId = false →
      extractSubscriptionTier (some d) = some .free) := by
  refine ⟨fun hp => ?_, fun hp hc => ?_, fun hp hc => ?_⟩ <;>
    simp [extractSubscriptionTier, hp]
  · simp [hc]
  · simp [hc]

/-- Witness for extractSubscriptionTier_spec: a paid g1-pro-tier wins, a
standard-tier currentTier is used when paidTier is absent, and a
response with neither yields free. -/
theorem extractSubscriptionTier_spec_witness :
    extractSubscriptionTier
        (some { paidTierId := some "g1-pro-tier", currentTierId := none,
                allowedTiers := [], cloudaicompanionProject := none })
      = some (parseTierId "g1-pro-tier") ∧
    extractSubscriptionTier
        (some { paidTierId := none, currentTierId := some "standard-tier",
                allowedTiers := [], cloudaicompanionProject := none })
      = some (parseTierId "standard-tier") ∧
    extractSubscriptionTier
        (some { paidTierId := none, currentTierId := none,
                allowedTiers := [], cloudaicompanionProject := none })
      = some .free := by
  refine ⟨?_, ?_, ?_⟩
  · exact (extractSubscriptionTier_spec
      { paidTierId := some "g1-pro-tier", currentTierId := none,
        allowedTiers := [], cloudaicompanionProject := none }).1 (by decide)
  · exact (extractSubscriptionTier_spec
      { paidTierId := none, currentTierId := some "standard-tier",
        allowedTiers := [], cloudaicompanionProject := none }).2.1
      (by decide) (by decide)
  · exact (extractSubscriptionTier_spec
      { paidTierId := none, currentTierId := none,
        allowedTiers := [], cloudaicompanionProject := none }).2.2
      (by decide) (by decide)

/-! ## Composite refresh credential parsing
(src/auth/oauth.js parseRefreshParts / formatRefreshParts) -/

/-- The record parseRefreshParts returns. -/
structure RefreshParts where
  refreshToken : String
  projectId : Option String
  managedProjectId : Option String
  deriving DecidableEq, Repr

/-- Splits a character list at every bar, embedding
String.prototype.split("|"): one (possibly empty) segment per gap. -/
def splitBar : List Char → List (List Char)
  | [] => [[]]
  | c :: t =>
    if c = '|' then [] :: splitBar t
    else
      match splitBar t with
      | [] => [[c]]
      | s :: rest => (c :: s) :: rest

/-- Embeds parseRefreshParts (src/auth/oauth.js lines 28-35): the first
three bar-separated segments, missing ones defaulting to the empty
string, with the optional segments mapped to undefined when empty. -/
def parseRefreshParts (refresh : String) : RefreshParts :=
  let segs := (splitBar refresh.toList).map String.mk
  let refreshToken := segs.getD 0 ""
  let projectId := segs.getD 1 ""
  let managedProjectId := segs.getD 2 ""
  { refreshToken := refreshToken
    projectId := if projectId = "" then none else some projectId
    managedProjectId :=
      if managedProjectId = "" then none else some managedProjectId }

/-- Embeds formatRefreshParts (src/auth/oauth.js lines 43-47): the base
is always refreshToken, a bar, and the (possibly empty) project segment;
the managed-project segment is appended only when truthy. -/
def formatRefreshParts (parts : RefreshParts) : String :=
  let projectSegment := parts.projectId.getD ""
  let base := parts.refreshToken ++ "|" ++ projectSegment
  match parts.managedProjectId with
  | some m => if m = "" then base else base ++ "|" ++ m
  | none => base

/-- Removes trailing bar separators, the normalisation claim C7 allows
the round-trip to be stated up to. -/
def stripTrailingBars (s : String) : String :=
  String.mk ((s.toList.reverse.dropWhile (fun c => c == '|')).reverse)

theorem splitBar_no_bar (l : List Char) (h : '|' ∉ l) : splitBar l = [l] := by
  induction l with
  | nil => rfl
  | cons c t ih =>
    have hc : ¬ c = '|' := fun e => h (e ▸ List.mem_cons_self c t)
    have ht : '|' ∉ t := fun hx => h (List.mem_cons_of_mem _ hx)
    simp [splitBar, hc, ih ht]

theorem splitBar_append (a b : List Char) (h : '|' ∉ a) :
    splitBar (a ++ '|' :: b) = a :: splitBar b := by
  induction a with
  | nil => simp [splitBar]
  | cons c t ih =>
    have hc : ¬ c = '|' := fun e => h (e ▸ List.mem_cons_self c t)
    have ht : '|' ∉ t := fun hx => h (List.mem_cons_of_mem _ hx)
    simp [splitBar, hc, ih ht]

theorem stripTrailingBars_append_bar (s : String) :
    stripTrailingBars (s ++ "|") = stripTrailingBars s := by
  have h1 : (s ++ "|").toList = s.toList ++ ['|'] := rfl
  rw [stripTrailingBars, stripTrailingBars, h1]
  simp [List.dropWhile]

theorem stripTrailingBars_no_bar (s : String) (h : '|' ∉ s.toList) :
    stripTrailingBars s = s := by
  rw [stripTrailingBars]
  have hdrop : s.toList.reverse.dropWhile (fun c => c == '|')
      = s.toList.reverse := by
    cases hrev : s.toList.reverse with
    | nil => rfl
    | cons c t =>
      have hc : c ∈ s.toList := by
        have hmem : c ∈ s.toList.reverse := hrev ▸ List.mem_cons_self c t
        simpa using hmem
      have hne : ¬ (c == '|') = true := by
        simp only [beq_iff_eq]
        intro e
        exact h (e ▸ hc)
      simp [List.dropWhile, hne]
  rw [hdrop, List.reverse_reverse]
  rfl

theorem strAppendEmpty (s : String) : s ++ "" = s := by
  cases s
  simp [String.append]

theorem strMkToList (s : String) : String.mk s.toList = s := rfl

theorem parseRefreshParts_one (r : String) (hr : '|' ∉ r.toList) :
    parseRefreshParts r
      = { refreshToken := r, projectId := none, managedProjectId := none } := by
  unfold parseRefreshParts
  rw [splitBar_no_bar r.toList hr]
  simp [strMkToList]

theorem parseRefreshParts_two (r p : String) (hr : '|' ∉ r.toList)
    (hp : '|' ∉ p.toList) :
    parseRefreshParts (r ++ "|" ++ p)
      = { refreshToken := r,
          projectId := if p = "" then none else some p,
          managedProjectId := none } := by
  have hx : (r ++ "|" ++ p).toList = r.toList ++ '|' :: p.toList := by
    have h0 : (r ++ "|" ++ p).toList = r.toList ++ ['|'] ++ p.toList := rfl
    rw [h0]
    simp
  unfold parseRefreshParts
  rw [hx, splitBar_append _ _ hr, splitBar_no_bar _ hp]
  simp [strMkToList]

theorem parseRefreshParts_three (r p m : String) (hr : '|' ∉ r.toList)
    (hp : '|' ∉ p.toList) (hm : '|' ∉ m.toList) :
    parseRefreshParts (r ++ "|" ++ p ++ "|" ++ m)
      = { refreshToken := r,
          projectId := if p = "" then none else some p,
          managedProjectId := if m = "" then none else some m } := by
  have hx : (r ++ "|" ++ p ++ "|" ++ m).toList
      = r.toList ++ '|' :: (p.toList ++ '|' :: m.toList) := by
    have h0 : (r ++ "|" ++ p ++ "|" ++ m).toList
        = r.toList ++ ['|'] ++ p.toList ++ ['|'] ++ m.toList := rfl
    rw [h0]
    simp [List.append_assoc]
  unfold parseRefreshParts
  rw [hx, splitBar_append _ _ hr, splitBar_append _ _ hp,
      splitBar_no_bar _ hm]
  simp [strMkToList]

/-- C7 counterexample.  Formatting a record with no projectId and no
managedProjectId yields the refresh token followed by a trailing bar,
not the bare refresh token: the first separator is always emitted. -/
theorem formatRefreshParts_claim_counterexample :
    formatRefreshParts
        { refreshToken := "rt", projectId := none, managedProjectId := none }
      = "rt|" ∧
    formatRefreshParts
        { refreshToken := "rt", projectId := none, managedProjectId := none }
      ≠ "rt" := by
  exact ⟨rfl, by decide⟩

/-- C7 amended.  For every well-formed composite credential (one, two or
three bar-free segments), format after parse returns the input up to
trailing-separator normalisation; formatting omits the managed-project
segment together with its separator when that segment is missing, but
always emits the first separator, so a record with no projectId and no
managedProjectId formats as the refresh token followed by a trailing
bar. -/
theorem refresh_roundtrip_spec (r p m : String)
    (hr : '|' ∉ r.toList) (hp : '|' ∉ p.toList) (hm : '|' ∉ m.toList) :
    stripTrailingBars (formatRefreshParts (parseRefreshParts r))
      = stripTrailingBars r ∧
    stripTrailingBars (formatRefreshParts (parseRefreshParts (r ++ "|" ++ p)))
      = stripTrailingBars (r ++ "|" ++ p) ∧
    stripTrailingBars
        (formatRefreshParts (parseRefreshParts (r ++ "|" ++ p ++ "|" ++ m)))
      = stripTrailingBars (r ++ "|" ++ p ++ "|" ++ m) ∧
    formatRefreshParts
        { refreshToken := r, projectId := none, managedProjectId := none }
      = r ++ "|" := by
  have hfmt0 : formatRefreshParts
      { refreshToken := r, projectId := none, managedProjectId := none }
      = r ++ "|" := by
    show r ++ "|" ++ "" = r ++ "|"
    exact strAppendEmpty (r ++ "|")
  have hfmt2 : ∀ mid : Option String, mid = none →
      formatRefreshParts
        { refreshToken := r, projectId := if p = "" then none else some p,
          managedProjectId := mid }
      = r ++ "|" ++ p := by
    intro mid hmid
    subst hmid
    by_cases hp0 : p = ""
    · subst hp0
      simp [formatRefreshParts]
    · simp [formatRefreshParts, hp0]
  refine ⟨?_, ?_, ?_, hfmt0⟩
  · rw [parseRefreshParts_one r hr, hfmt0, stripTrailingBars_append_bar]
  · rw [parseRefreshParts_two r p hr hp, hfmt2 none rfl]
  · rw [parseRefreshParts_three r p m hr hp hm]
    by_cases hm0 : m = ""
    · subst hm0
      rw [hfmt2 (if ("" : String) = "" then none else some "") (by simp)]
      rw [strAppendEmpty (r ++ "|" ++ p ++ "|"), stripTrailingBars_append_bar]
    · have hfmt3 : formatRefreshParts
          { refreshToken := r, projectId := if p = "" then none else some p,
            managedProjectId := if m = "" then none else some m }
          = r ++ "|" ++ p ++ "|" ++ m := by
        by_cases hp0 : p = ""
        · subst hp0
          simp [formatRefreshParts, hm0]
        · simp [formatRefreshParts, hm0, hp0]
      rw [hfmt3]

/-- Witness for refresh_roundtrip_spec on a concrete three-segment
credential, plus the trailing-bar formatting of a bare refresh token. -/
theorem refresh_roundtrip_spec_witness :
    stripTrailingBars
        (formatRefreshParts
          (parseRefreshParts ("tok" ++ "|" ++ "proj" ++ "|" ++ "managed")))
      = stripTrailingBars ("tok" ++ "|" ++ "proj" ++ "|" ++ "managed") ∧
    formatRefreshParts
        { refreshToken := "tok", projectId := none, managedProjectId := none }
      = "tok" ++ "|" := by
  have h := refresh_roundtrip_spec "tok" "proj" "managed"
    (by decide) (by decide) (by decide)
  exact ⟨h.2.2.1, h.2.2.2⟩

/-! ## Usage statistics (src/modules/usage-stats.js track / getFamily /
getShortName).  A JS family object is an association list holding the
per-model counters together with the reserved "_subtotal" key; the hour
bucket's "_total" key is kept as a separate field, which is faithful
because family keys are always "claude", "gemini" or "other" and so
never collide with "_total". -/

/-- A family object: per-model counters plus the "_subtotal" entry. -/
abbrev FamObj := List (String × Nat)

/-- First-match lookup of a numeric property, 0 when absent (the
`(x || 0)` read). -/
def lookupD (l : FamObj) (k : String) : Nat :=
  match l with
  | [] => 0
  | (k1, v) :: t => if k1 = k then v else lookupD t k

/-- Embeds `obj[k] = (obj[k] || 0) + 1`: increments the first entry with
the key, appending the key with value 1 when absent (JS property
insertion order). -/
def jsIncr : FamObj → String → FamObj
  | [], k => [(k, 1)]
  | (k1, v) :: t, k =>
    if k1 = k then (k1, v + 1) :: t else (k1, v) :: jsIncr t k

/-- Embeds `if (!o[k]) o[k] = d; f(o[k])` on a JS object: applies f to
the entry at the key, inserting f d at the end when the key is absent. -/
def jsUpdate {α : Type} (d : α) (f : α → α) :
    List (String × α) → String → List (String × α)
  | [], k => [(k, f d)]
  | (k1, v) :: t, k =>
    if k1 = k then (k1, f v) :: t else (k1, v) :: jsUpdate d f t k

/-- Embeds getFamily (src/modules/usage-stats.js): claude / gemini by
name substring, else "other". -/
def getFamily (modelId : String) : String :=
  let lower := strToLower modelId
  if strContains lower "claude" then "claude"
  else if strContains lower "gemini" then "gemini"
  else "other"

/-- Embeds getShortName (src/modules/usage-stats.js): strips the leading
family prefix and dash, matched case-insensitively, from the model id;
"other" models keep their full id. -/
def getShortName (modelId : String) (family : String) : String :=
  if family = "other" then modelId
  else if startsWithL (strToLower modelId).toList (family ++ "-").toList then
    String.mk (modelId.toList.drop (family.length + 1))
  else modelId

/-- One hour bucket: the "_total" counter and the per-family objects. -/
structure HourBucket where
  total : Nat
  fams : List (String × FamObj)
  deriving DecidableEq, Repr

/-- The bucket created by `history[key] = { _total: 0 }`. -/
def emptyBucket : HourBucket := { total := 0, fams := [] }

/-- Embeds the bucket mutation of track (src/modules/usage-stats.js
lines 117-133): initialise the family object to { _subtotal: 0 } when
absent, bump the short-name counter, bump the family subtotal, bump the
bucket total. -/
def trackBucket (modelId : String) (b : HourBucket) : HourBucket :=
  let family := getFamily modelId
  let shortName := getShortName modelId family
  { total := b.total + 1
    fams := jsUpdate [("_subtotal", 0)]
      (fun obj => jsIncr (jsIncr obj shortName) "_subtotal") b.fams family }

/-- Embeds track (src/modules/usage-stats.js lines 107-136), the hour
key (the UTC timestamp truncated to the hour) passed explicitly. -/
def track (hist : List (String × HourBucket)) (hourKey modelId : String) :
    List (String × HourBucket) :=
  jsUpdate emptyBucket (trackBucket modelId) hist hourKey

/-- A sequence of track calls starting from the empty history; each
operation is (hour key, model id). -/
def runTrack (ops : List (String × String)) : List (String × HourBucket) :=
  ops.foldl (fun h op => track h op.1 op.2) []

/-- Sum of a family object's per-model counters, the "_subtotal" entry
excluded. -/
def modelSum : FamObj → Nat
  | [] => 0
  | (k1, v) :: t => (if k1 = "_subtotal" then 0 else v) + modelSum t

/-- Sum of the families' "_subtotal" counters. -/
def famSubSum : List (String × FamObj) → Nat
  | [] => 0
  | (_, obj) :: t => lookupD obj "_subtotal" + famSubSum t

/-- The per-family half of the consistency invariant: the subtotal
equals the sum of the per-model counters. -/
def famObjInv (obj : FamObj) : Prop :=
  lookupD obj "_subtotal" = modelSum obj

/-- The bucket consistency invariant of claim C10. -/
def bucketInv (b : HourBucket) : Prop :=
  b.total = famSubSum b.fams ∧ ∀ f ∈ b.fams, famObjInv f.2

/-- The invariant over every hour bucket of the history. -/
def histInv (h : List (String × HourBucket)) : Prop :=
  ∀ e ∈ h, bucketInv e.2

instance (obj : FamObj) : Decidable (famObjInv obj) := by
  unfold famObjInv
  infer_instance

instance (b : HourBucket) : Decidable (bucketInv b) := by
  unfold bucketInv
  infer_instance

instance (h : List (String × HourBucket)) : Decidable (histInv h) := by
  unfold histInv
  infer_instance

theorem lookupD_jsIncr_same (l : FamObj) (k : String) :
    lookupD (jsIncr l k) k = lookupD l k + 1 := by
  induction l with
  | nil => simp [jsIncr, lookupD]
  | cons e t ih =>
    obtain ⟨k1, v⟩ := e
    by_cases h : k1 = k
    · subst h
      simp [jsIncr, lookupD]
    · simp only [jsIncr, if_neg h, lookupD]
      exact ih

theorem lookupD_jsIncr_ne (l : FamObj) (k s : String) (h : k ≠ s) :
    lookupD (jsIncr l k) s = lookupD l s := by
  induction l with
  | nil => simp [jsIncr, lookupD, h]
  | cons e t ih =>
    obtain ⟨k1, v⟩ := e
    by_cases h1 : k1 = k
    · subst h1
      simp only [jsIncr, if_pos rfl, lookupD]
      rw [if_neg h, if_neg h]
    · simp only [jsIncr, if_neg h1, lookupD]
      split
      · rfl
      · exact ih

theorem modelSum_jsIncr_ne (l : FamObj) (k : String) (h : k ≠ "_subtotal") :
    modelSum (jsIncr l k) = modelSum l + 1 := by
  induction l with
  | nil => simp [jsIncr, modelSum, h]
  | cons e t ih =>
    obtain ⟨k1, v⟩ := e
    by_cases h1 : k1 = k
    · subst h1
      simp only [jsIncr, if_pos rfl, modelSum, if_neg h]
      omega
    · simp only [jsIncr, if_neg h1, modelSum]
      rw [ih]
      omega

theorem modelSum_jsIncr_subtotal (l : FamObj) :
    modelSum (jsIncr l "_subtotal") = modelSum l := by
  induction l with
  | nil => simp [jsIncr, modelSum]
  | cons e t ih =>
    obtain ⟨k1, v⟩ := e
    by_cases h1 : k1 = "_subtotal"
    · subst h1
      simp [jsIncr, modelSum]
    · simp only [jsIncr, if_neg h1, modelSum]
      rw [ih]

theorem famSubSum_jsUpdate (fam : String) (d : FamObj) (g : FamObj → FamObj)
    (hg : ∀ obj, lookupD (g obj) "_subtotal" = lookupD obj "_subtotal" + 1)
    (hd : lookupD d "_subtotal" = 0) :
    ∀ fams : List (String × FamObj),
      famSubSum (jsUpdate d g fams fam) = famSubSum fams + 1 := by
  intro fams
  induction fams with
  | nil => simp [jsUpdate, famSubSum, hg d, hd]
  | cons e t ih =>
    obtain ⟨k1, obj⟩ := e
    by_cases h1 : k1 = fam
    · simp only [jsUpdate, if_pos h1, famSubSum]
      rw [hg obj]
      omega
    · simp only [jsUpdate, if_neg h1, famSubSum]
      rw [ih]
      omega

theorem jsUpdate_forall {α : Type} {P : α → Prop} (d : α) (g : α → α)
    (k : String) (h2 : ∀ v, P v → P (g v)) (h3 : P (g d)) :
    ∀ l : List (String × α), (∀ e ∈ l, P e.2) →
      ∀ e ∈ jsUpdate d g l k, P e.2 := by
  intro l
  induction l with
  | nil =>
    intro _ e he
    simp only [jsUpdate, List.mem_singleton] at he
    subst he
    exact h3
  | cons x t ih =>
    intro h1 e he
    obtain ⟨k1, v⟩ := x
    by_cases hk : k1 = k
    · rw [jsUpdate, if_pos hk] at he
      rcases List.mem_cons.mp he with h | h
      · subst h
        exact h2 v (h1 (k1, v) (List.mem_cons_self _ _))
      · exact h1 e (List.mem_cons_of_mem _ h)
    · rw [jsUpdate, if_neg hk] at he
      rcases List.mem_cons.mp he with h | h
      · subst h
        exact h1 (k1, v) (List.mem_cons_self _ _)
      · exact ih (fun e1 he1 => h1 e1 (List.mem_cons_of_mem _ he1)) e h

theorem famObjInv_step (short : String) (hshort : short ≠ "_subtotal")
    (obj : FamObj) (h : famObjInv obj) :
    famObjInv (jsIncr (jsIncr obj short) "_subtotal") := by
  unfold famObjInv at h ⊢
  rw [lookupD_jsIncr_same, lookupD_jsIncr_ne _ _ _ hshort,
      modelSum_jsIncr_subtotal, modelSum_jsIncr_ne _ _ hshort, h]

theorem trackBucket_preserves (modelId : String) (b : HourBucket)
    (hshort : getShortName modelId (getFamily modelId) ≠ "_subtotal")
    (hb : bucketInv b) : bucketInv (trackBucket modelId b) := by
  obtain ⟨htot, hfam⟩ := hb
  have hg : ∀ obj : FamObj,
      lookupD (jsIncr (jsIncr obj (getShortName modelId (getFamily modelId)))
          "_subtotal") "_subtotal"
        = lookupD obj "_subtotal" + 1 := by
    intro obj
    rw [lookupD_jsIncr_same, lookupD_jsIncr_ne _ _ _ hshort]
  constructor
  · simp only [trackBucket]
    rw [famSubSum_jsUpdate _ _ _ hg (by simp [lookupD]) b.fams, htot]
  · simp only [trackBucket]
    refine jsUpdate_forall _ _ _ ?_ ?_ b.fams hfam
    · exact fun obj h => famObjInv_step _ hshort obj h
    · exact famObjInv_step _ hshort [("_subtotal", 0)] (by simp [famObjInv, lookupD, modelSum])

theorem track_preserves (hist : List (String × HourBucket))
    (hourKey modelId : String)
    (hshort : getShortName modelId (getFamily modelId) ≠ "_subtotal")
    (hh : histInv hist) : histInv (track hist hourKey modelId) := by
  unfold track
  refine jsUpdate_forall _ _ _ ?_ ?_ hist hh
  · exact fun b hb => trackBucket_preserves modelId b hshort hb
  · refine trackBucket_preserves modelId emptyBucket hshort ?_
    exact ⟨rfl, fun f hf => absurd hf (List.not_mem_nil f)⟩

theorem runTrack_invariant_aux (ops : List (String × String)) :
    ∀ hist : List (String × HourBucket), histInv hist →
      (∀ op ∈ ops, getShortName op.2 (getFamily op.2) ≠ "_subtotal") →
      histInv (ops.foldl (fun h op => track h op.1 op.2) hist) := by
  induction ops with
  | nil => exact fun hist hh _ => hh
  | cons op t ih =>
    intro hist hh hops
    simp only [List.foldl]
    exact ih _
      (track_preserves hist op.1 op.2 (hops op (List.mem_cons_self _ _)) hh)
      (fun o ho => hops o (List.mem_cons_of_mem _ ho))

/-- C10 counterexample.  Tracking the model id "claude-_subtotal" (as a
client-supplied model string can be) strips the family prefix to the
reserved key "_subtotal", so the model increment and the subtotal
increment hit the same entry: after one call the bucket total is 1 but
the family subtotal is 2, violating the consistency invariant. -/
theorem track_claim_counterexample :
    ¬ histInv (runTrack [("2026-10-12T10:00:00.000Z", "claude-_subtotal")]) := by
  decide

/-- C10 amended.  Starting from the empty usage history, after any
sequence of track calls in which no tracked model id's stripped short
name is the reserved key "_subtotal", every hour bucket satisfies the
consistency invariant: _total is the sum of the family _subtotal values
and each family's _subtotal is the sum of its per-model counts. -/
theorem track_invariant (ops : List (String × String))
    (h : ∀ op ∈ ops, getShortName op.2 (getFamily op.2) ≠ "_subtotal") :
    histInv (runTrack ops) := by
  unfold runTrack
  exact runTrack_invariant_aux ops []
    (fun e he => absurd he (List.not_mem_nil e)) h

/-- Witness for track_invariant: two requests in the same hour and one
in the next hour across both families keep every bucket consistent. -/
theorem track_invariant_witness :
    histInv (runTrack
      [("2026-10-12T10:00:00.000Z", "claude-opus-4-6-thinking"),
       ("2026-10-12T10:00:00.000Z", "gemini-3-flash"),
       ("2026-10-12T11:00:00.000Z", "claude-opus-4-6-thinking")]) := by
  apply track_invariant
  decide
